import Mathlib

/-!
Verification development for the lgr leveled logger (Go package `lgr`,
file `logger.go`).  Go strings are embedded as `List Char` (all strings
involved are ASCII, so Go's byte indexing and char indexing coincide);
fallible Go operations (out-of-range slicing panics) are embedded as
`Option`.  The runtime-dependent inputs of a log call (wall-clock time,
resolved caller frame, captured stack dump) are passed to the embedded
functions as explicit parameters.
-/

/-- Go strings, embedded as lists of characters. -/
abbrev Str := List Char

/-- Embeds Go `strings.HasPrefix(s, pre)`. -/
def startsWith : Str → Str → Bool
  | _, [] => true
  | [], _ :: _ => false
  | c :: cs, p :: ps => p == c && startsWith cs ps

/-- Embeds Go `strings.Contains(s, sub)`. -/
def containsSub : Str → Str → Bool
  | [], sub => sub.isEmpty
  | c :: cs, sub => startsWith (c :: cs) sub || containsSub cs sub

/-- Embeds Go string slicing `s[k:]`: `none` models the runtime panic
`slice bounds out of range` raised when `k > len(s)`. -/
def goSliceFrom : Nat → Str → Option Str
  | 0, s => some s
  | _ + 1, [] => none
  | k + 1, _ :: cs => goSliceFrom k cs

/-- Embeds Go `strings.Join(parts, " ")`. -/
def joinSpace : List Str → Str
  | [] => []
  | [p] => p
  | p :: q :: rest => p ++ ' ' :: joinSpace (q :: rest)

/-- Embeds Go `strings.TrimSuffix(msg, "\n")` (used in `logf`): removes one
trailing newline if present. -/
def trimNewline (s : Str) : Str :=
  if s.getLast? = some '\n' then s.dropLast else s

/-- Helper for `replaceFirst`: scans for the first occurrence of a
non-empty `old` and substitutes `new` for it. -/
def replaceFirstAux (old new : Str) : Str → Str
  | [] => []
  | c :: cs =>
    if startsWith (c :: cs) old then new ++ (c :: cs).drop old.length
    else c :: replaceFirstAux old new cs

/-- Embeds Go `bytes.Replace(s, old, new, 1)`: replaces the first
occurrence of `old` by `new` (an empty `old` matches at the start). -/
def replaceFirst (old new s : Str) : Str :=
  if old.isEmpty then new ++ s else replaceFirstAux old new s

def lvlTRACE : Str := ("TRACE").toList
def lvlDEBUG : Str := ("DEBUG").toList
def lvlINFO : Str := ("INFO").toList
def lvlWARN : Str := ("WARN").toList
def lvlERROR : Str := ("ERROR").toList
def lvlPANIC : Str := ("PANIC").toList
def lvlFATAL : Str := ("FATAL").toList

/-- The severity tokens, in the scan order of `logger.go`:
`var levels = []string{"TRACE", "DEBUG", "INFO", "WARN", "ERROR", "PANIC", "FATAL"}`. -/
def levels : List Str :=
  [lvlTRACE, lvlDEBUG, lvlINFO, lvlWARN, lvlERROR, lvlPANIC, lvlFATAL]

/-- The bracketed form `"[" + lv + "]"` built by `extractLevel`. -/
def bracketed (lv : Str) : Str := '[' :: lv ++ [']']

/-- The scan loop of `extractLevel` over the `levels` list.  For each
candidate `lv` it tries the bare prefix (returning `line[len(lv)+1:]`) and
the bracketed prefix (returning `line[len(lv)+3:]`); `none` models the Go
slice panic when the line ends right after the matched token. -/
def extractLevelGo : List Str → Str → Option (Str × Str)
  | [], line => some (lvlINFO, line)
  | lv :: rest, line =>
    if startsWith line lv then
      (goSliceFrom (lv.length + 1) line).map (fun m => (lv, m))
    else if startsWith line (bracketed lv) then
      (goSliceFrom (lv.length + 3) line).map (fun m => (lv, m))
    else extractLevelGo rest line

/-- Embeds `(*Logger).extractLevel` of `logger.go`: parses an optional
level prefix and returns the level with the stripped message, defaulting
to INFO; `none` models a Go runtime panic. -/
def extractLevel (line : Str) : Option (Str × Str) :=
  extractLevelGo levels line

example : extractLevel (("WARN blah").toList) = some (lvlWARN, ("blah").toList) := by rfl
example : extractLevel (("[WARN] blah").toList) = some (lvlWARN, ("blah").toList) := by rfl
example : extractLevel (("no level").toList) = some (lvlINFO, ("no level").toList) := by rfl
example : extractLevel (("ERROR").toList) = none := by rfl
example : extractLevel (("[ERROR]").toList) = none := by rfl

/-- Embeds Go `time.Time` for the purposes of this program: the code only
ever consumes a time value through `DT.Format layout`, so a time value is
embedded as its `Format` function. -/
structure GoTime where
  fmt : Str → Str

/-- The zero value `time.Time{}` used by `New`'s smoke render; the Go zero
time formats as `0001/01/01 00:00:00`-style text for the layouts in use. -/
def zeroTime : GoTime :=
  GoTime.mk (fun _ => ("0001/01/01 00:00:00").toList)

/-- A fixed substitutable clock mirroring the test harness value
`time.Date(2018, 1, 7, 13, 2, 34, 0, time.Local)` under the second-precision
layout. -/
def testTime : GoTime :=
  GoTime.mk (fun _ => ("2018/01/07 13:02:34").toList)

/-- Embeds the `layout` struct of `logger.go`: all parts used to construct
the final message with the template. -/
structure Layout where
  DT : GoTime
  Level : Str
  Message : Str
  CallerPkg : Str
  CallerFile : Str
  CallerFunc : Str
  CallerLine : Int

/-- Embeds the `callerInfo` struct (the Frame Resolver's result).  Its
fields come from runtime stack introspection, so a resolved value is an
input of the embedded `logf`. -/
structure CallerInfo where
  File : Str
  Line : Int
  FuncName : Str
  Pkg : Str
deriving DecidableEq

/-- The zero value `callerInfo{}` used when caller reporting is off. -/
def emptyCI : CallerInfo := CallerInfo.mk [] 0 [] []

/-- The `layout{}` zero value that `New` smoke-renders against. -/
def emptyLayout : Layout := Layout.mk zeroTime [] [] [] [] [] 0

/-- Decimal rendering of an `Int`, as Go's template engine prints the
`CallerLine int` field. -/
def intToStr : Int → Str
  | Int.ofNat n => Nat.toDigits 10 n
  | Int.negSucc n => '-' :: Nat.toDigits 10 (n + 1)

/-!
A minimal embedding of the subset of Go `text/template` exercised by the
lgr layouts: literal text, `\x7b\x7b.Field\x7d\x7d` field actions over the
`layout` struct, the `\x7b\x7b.DT.Format "..."\x7d\x7d` call, and quoted
string actions such as `\x7b\x7b"\x7b"\x7d\x7d` used to print literal braces.
Parsing may fail (malformed action / unclosed delimiter); executing may
fail on a field the `layout` struct does not have. Execution writes output
up to the point of failure, as `template.Execute` does on a buffer.
-/

/-- One parsed template node. -/
inductive TplToken where
  | lit : Str → TplToken
  | strAct : Str → TplToken
  | dtFormat : Str → TplToken
  | field : Str → TplToken
deriving DecidableEq

/-- Scans an action body up to the closing `\x7d\x7d` delimiter, returning
the body and the rest of the input. -/
def scanAction : Str → Option (Str × Str)
  | [] => none
  | '}' :: '}' :: rest => some ([], rest)
  | c :: rest => (scanAction rest).map (fun p => (c :: p.1, p.2))

/-- Splits a string at its first double quote. -/
def splitQuote : Str → Option (Str × Str)
  | [] => none
  | '"' :: rest => some ([], rest)
  | c :: rest => (splitQuote rest).map (fun p => (c :: p.1, p.2))

def isIdentChar (c : Char) : Bool := c.isAlphanum || c == '_'

/-- Classifies one action body: a quoted string action, the
`.DT.Format "layout"` call, or a plain `.Field` reference; anything else
is a parse error. -/
def classifyAction (body : Str) : Except Str TplToken :=
  match body with
  | '"' :: rest =>
    match splitQuote rest with
    | some (content, []) => Except.ok (TplToken.strAct content)
    | _ => Except.error (("bad string action").toList)
  | '.' :: rest =>
    if startsWith rest (("DT.Format \"").toList) then
      match splitQuote (rest.drop 11) with
      | some (layoutStr, []) => Except.ok (TplToken.dtFormat layoutStr)
      | _ => Except.error (("bad DT.Format action").toList)
    else if rest ≠ [] ∧ rest.all isIdentChar then Except.ok (TplToken.field rest)
    else Except.error (("bad field action").toList)
  | _ => Except.error (("unrecognized action").toList)

/-- Prepends a literal character to a token list, merging with a leading
literal token. -/
def mergeLit (c : Char) : List TplToken → List TplToken
  | TplToken.lit s :: ts => TplToken.lit (c :: s) :: ts
  | ts => TplToken.lit [c] :: ts

/-- Fuel-driven scanner over the template text; the fuel is the input
length, which every step strictly decreases, so the fuel never runs out. -/
def parseTplAux : Nat → Str → Except Str (List TplToken)
  | _, [] => Except.ok []
  | 0, _ :: _ => Except.error (("out of fuel").toList)
  | fuel + 1, '{' :: '{' :: rest =>
    match scanAction rest with
    | none => Except.error (("unclosed action").toList)
    | some (body, rest2) =>
      match classifyAction body with
      | Except.error e => Except.error e
      | Except.ok tok => (parseTplAux fuel rest2).map (fun ts => tok :: ts)
  | fuel + 1, c :: rest => (parseTplAux fuel rest).map (fun ts => mergeLit c ts)

/-- Embeds `template.New("lgr").Parse(format)`. -/
def parseTpl (s : Str) : Except Str (List TplToken) :=
  parseTplAux s.length s

/-- Evaluates one token against a `Layout` record. -/
def execTok (e : Layout) : TplToken → Except Str Str
  | TplToken.lit s => Except.ok s
  | TplToken.strAct s => Except.ok s
  | TplToken.dtFormat l => Except.ok (e.DT.fmt l)
  | TplToken.field n =>
    if n = ("Level").toList then Except.ok e.Level
    else if n = ("Message").toList then Except.ok e.Message
    else if n = ("CallerPkg").toList then Except.ok e.CallerPkg
    else if n = ("CallerFile").toList then Except.ok e.CallerFile
    else if n = ("CallerFunc").toList then Except.ok e.CallerFunc
    else if n = ("CallerLine").toList then Except.ok (intToStr e.CallerLine)
    else Except.error (("can't evaluate field ").toList ++ n)

/-- Embeds `templ.Execute(&buf, elems)`: returns the text written to the
buffer together with the error, if any, at which execution stopped. -/
def execTpl (e : Layout) : List TplToken → Str × Option Str
  | [] => ([], none)
  | t :: ts =>
    match execTok e t with
    | Except.ok s =>
      match execTpl e ts with
      | (rest, err) => (s ++ rest, err)
    | Except.error msg => ([], some msg)

/-! The template-string constants of `logger.go`, written with `\x7b`/`\x7d`
escapes for the literal braces. -/

/-- The `Short` layout constant (the fallback format). -/
def Short : Str :=
  ("\x7b\x7b.DT.Format \"2006/01/02 15:04:05\"\x7d\x7d \x7b\x7b.Level\x7d\x7d \x7b\x7b.Message\x7d\x7d").toList

def dtSecTpl : Str := ("\x7b\x7b.DT.Format \"2006/01/02 15:04:05\"\x7d\x7d").toList
def dtMsecTpl : Str := ("\x7b\x7b.DT.Format \"2006/01/02 15:04:05.000\"\x7d\x7d").toList
def levelTpl : Str := ("\x7b\x7b.Level\x7d\x7d").toList
def braceLevelTpl : Str := ("[\x7b\x7b.Level\x7d\x7d]").toList
def msgTpl : Str := ("\x7b\x7b.Message\x7d\x7d").toList
def callerFileTpl : Str := ("\x7b\x7b.CallerFile\x7d\x7d:\x7b\x7b.CallerLine\x7d\x7d").toList
def callerFuncTpl : Str := ("\x7b\x7b.CallerFunc\x7d\x7d").toList
def callerPkgTpl : Str := ("\x7b\x7b.CallerPkg\x7d\x7d").toList

/-- Go `openCallerBrace`, the escaped template text printing a literal
opening brace. -/
def openCallerBrace : Str := ("\x7b\x7b\"\x7b\"\x7d\x7d").toList

/-- Go `closeCallerBrace`. -/
def closeCallerBrace : Str := ("\x7b\x7b\"\x7d\"\x7d\x7d").toList

/-- The marker `New` looks for to decide whether caller resolution is
needed (`strings.Contains(res.format, "\x7b\x7b.Caller")`). -/
def callerMark : Str := ("\x7b\x7b.Caller").toList

/-- The marker for the bracketed-level spacing fix
(`strings.Contains(res.format, "[\x7b\x7b.Level\x7d\x7d]")`). -/
def braceMark : Str := ("[\x7b\x7b.Level\x7d\x7d]").toList

/-- The option-settable fields of the `Logger` struct (the construction
surface).  The writers, clock and termination callback are handled as
explicit parameters of the embedded `logf`. -/
structure Config where
  dbg : Bool
  trace : Bool
  callerFile : Bool
  callerFunc : Bool
  callerPkg : Bool
  levelBraces : Bool
  msec : Bool
  format : Str
deriving DecidableEq

/-- The zero `Logger` value `New` starts from. -/
def defaultConfig : Config := Config.mk false false false false false false false []

/-- Embeds the Go `Option` functional-option type. -/
def Opt := Config → Config

/-- Option `Debug`: turn on dbg mode. -/
def Debug : Opt := fun c =>
  Config.mk true c.trace c.callerFile c.callerFunc c.callerPkg c.levelBraces c.msec c.format

/-- Option `Trace`: turn on trace + dbg mode. -/
def Trace : Opt := fun c =>
  Config.mk true true c.callerFile c.callerFunc c.callerPkg c.levelBraces c.msec c.format

/-- Option `CallerFile`. -/
def CallerFile : Opt := fun c =>
  Config.mk c.dbg c.trace true c.callerFunc c.callerPkg c.levelBraces c.msec c.format

/-- Option `CallerFunc`. -/
def CallerFunc : Opt := fun c =>
  Config.mk c.dbg c.trace c.callerFile true c.callerPkg c.levelBraces c.msec c.format

/-- Option `CallerPkg`. -/
def CallerPkg : Opt := fun c =>
  Config.mk c.dbg c.trace c.callerFile c.callerFunc true c.levelBraces c.msec c.format

/-- Option `LevelBraces`. -/
def LevelBraces : Opt := fun c =>
  Config.mk c.dbg c.trace c.callerFile c.callerFunc c.callerPkg true c.msec c.format

/-- Option `Msec`. -/
def Msec : Opt := fun c =>
  Config.mk c.dbg c.trace c.callerFile c.callerFunc c.callerPkg c.levelBraces true c.format

/-- Option `Format f`: sets the output layout, overriding the individual
flag options. -/
def Format (f : Str) : Opt := fun c =>
  Config.mk c.dbg c.trace c.callerFile c.callerFunc c.callerPkg c.levelBraces c.msec f

/-- Applies the option list to the zero value, as `New`'s option loop does. -/
def applyOpts (opts : List Opt) : Config :=
  opts.foldl (fun c o => o c) defaultConfig

/-- Embeds `(*Logger).templateFromOptions`: builds the layout template
from the individual formatting flags. -/
def templateFromOptions (c : Config) : Str :=
  let dtPart := if c.msec then dtMsecTpl else dtSecTpl
  let lvPart := if c.levelBraces then braceLevelTpl else levelTpl
  let callerParts :=
    (if c.callerFile then [callerFileTpl] else []) ++
    (if c.callerFunc then [callerFuncTpl] else []) ++
    (if c.callerPkg then [callerPkgTpl] else [])
  let parts :=
    if c.callerFile || c.callerFunc || c.callerPkg then
      [dtPart, lvPart, openCallerBrace ++ joinSpace callerParts ++ closeCallerBrace, msgTpl]
    else [dtPart, lvPart, msgTpl]
  joinSpace parts

/-- The parse of the `Short` fallback (`template.Must` on a constant that
does parse, as shown by `parseTpl_Short` below). -/
def shortToks : List TplToken := (parseTpl Short).toOption.getD []

/-- The template-selection logic of `New`: parse the chosen format; on a
parse error fall back to `Short`; then smoke-render against `layout{}` and
fall back to `Short` on an execute error.  (After a parse error Go smoke-
renders the already-substituted `Short` template, which succeeds, so the
net result is the same.) -/
def resolveTemplate (fmt0 : Str) : Str × List TplToken :=
  match parseTpl fmt0 with
  | Except.error _ => (Short, shortToks)
  | Except.ok toks =>
    if (execTpl emptyLayout toks).2.isSome then (Short, shortToks) else (fmt0, toks)

/-- The `Logger` struct as configured by `New` (stream, clock and
termination-callback fields are explicit parameters of `logf` instead). -/
structure Logger where
  dbg : Bool
  trace : Bool
  callerFile : Bool
  callerFunc : Bool
  callerPkg : Bool
  levelBraces : Bool
  msec : Bool
  format : Str
  templ : List TplToken
  callerOn : Bool
  levelBracesOn : Bool
deriving DecidableEq

/-- Embeds `New`: applies options, derives the format (from flags when no
template was supplied), parses it with the double fallback, and computes
the `callerOn` / `levelBracesOn` markers from the final format text. -/
def newFromConfig (c : Config) : Logger :=
  let fmt0 := if c.format.isEmpty then templateFromOptions c else c.format
  let ft := resolveTemplate fmt0
  Logger.mk c.dbg c.trace c.callerFile c.callerFunc c.callerPkg c.levelBraces c.msec
    ft.1 ft.2 (containsSub ft.1 callerMark) (containsSub ft.1 braceMark)

/-- `New(options...)` of `logger.go`. -/
def New (opts : List Opt) : Logger := newFromConfig (applyOpts opts)

/-- Embeds `(*Logger).formatLevel`: aligns a level to 5 chars. -/
def formatLevel (lv : Str) : Str :=
  if lv = [] then []
  else lv ++ (if lv.length = 4 then [' '] else [])

/-- What one `logf` call writes to each stream, and how many times it
invokes the termination callback `l.fatal`. -/
structure LogResult where
  out : Str
  err : Str
  fatalCalls : Nat
deriving DecidableEq

def warnPad : Str := ("[WARN ]").toList
def warnFix : Str := ("[WARN] ").toList
def infoPad : Str := ("[INFO ]").toList
def infoFix : Str := ("[INFO] ").toList

/-- The line-assembly part of `logf`: build the `layout` record (caller
info only when `callerOn`), execute the template, append the newline, and
apply the bracketed-level spacing fix when `levelBracesOn`. -/
def renderData (l : Logger) (now : GoTime) (ci : CallerInfo) (lv m : Str) : Str :=
  let ciUsed := if l.callerOn then ci else emptyCI
  let elems := Layout.mk now (formatLevel lv) (trimNewline m)
    ciUsed.Pkg ciUsed.File ciUsed.FuncName ciUsed.Line
  let data0 := (execTpl elems l.templ).1 ++ ['\n']
  if l.levelBracesOn then
    replaceFirst infoPad infoFix (replaceFirst warnPad warnFix data0)
  else data0

/-- Embeds `(*Logger).logf` applied to the already-`Sprintf`-formatted
message: extract the level, gate DEBUG/TRACE, assemble the line, write it
to the out stream and dispatch on the level for the err stream and the
termination callback.  `none` models a Go runtime panic escaping to the
caller; `now`, `ci` and `dump` stand for the clock, the resolved caller
frame and `getDump()`. -/
def logf (l : Logger) (now : GoTime) (ci : CallerInfo) (dump : Str) (msg : Str) :
    Option LogResult :=
  match extractLevel msg with
  | none => none
  | some (lv, m) =>
    if lv = lvlDEBUG ∧ l.dbg = false then some (LogResult.mk [] [] 0)
    else if lv = lvlTRACE ∧ l.trace = false then some (LogResult.mk [] [] 0)
    else
      let data := renderData l now ci lv m
      if lv = lvlERROR then some (LogResult.mk data data 0)
      else if lv = lvlFATAL then some (LogResult.mk data data 1)
      else if lv = lvlPANIC then some (LogResult.mk data (data ++ dump) 1)
      else some (LogResult.mk data [] 0)

/-- Embeds `(*Logger).Logf`, which delegates to `logf` (the `fmt.Sprintf`
call is total, so its result is the `msg` parameter here). -/
def Logf (l : Logger) (now : GoTime) (ci : CallerInfo) (dump : Str) (msg : Str) :
    Option LogResult :=
  logf l now ci dump msg

example :
    logf (New []) testTime emptyCI [] (("INFO something").toList) =
      some (LogResult.mk (("2018/01/07 13:02:34 INFO  something\n").toList) [] 0) := by rfl

example :
    logf (New [LevelBraces]) testTime emptyCI [] (("[WARN] x").toList) =
      some (LogResult.mk (("2018/01/07 13:02:34 [WARN]  x\n").toList) [] 0) := by rfl

example :
    logf (New []) testTime emptyCI [] (("DEBUG hidden").toList) =
      some (LogResult.mk [] [] 0) := by rfl

example :
    logf (New [Debug]) testTime emptyCI (("DUMP").toList) (("PANIC boom").toList) =
      some (LogResult.mk (("2018/01/07 13:02:34 PANIC boom\n").toList)
        (("2018/01/07 13:02:34 PANIC boom\nDUMP").toList) 1) := by rfl

example :
    logf (New []) testTime emptyCI (("DUMP").toList) (("FATAL boom").toList) =
      some (LogResult.mk (("2018/01/07 13:02:34 FATAL boom\n").toList)
        (("2018/01/07 13:02:34 FATAL boom\n").toList) 1) := by rfl

example : parseTpl Short =
    Except.ok [TplToken.dtFormat (("2006/01/02 15:04:05").toList), TplToken.lit [' '],
      TplToken.field (("Level").toList), TplToken.lit [' '],
      TplToken.field (("Message").toList)] := by rfl

example : (execTpl emptyLayout shortToks).2 = none := by rfl

/-!
An interleaving model of the Dispatcher/Writer for the concurrency claim:
each log call's locked section (`l.lock.Lock()` … `l.lock.Unlock()`)
becomes a list of primitive actions; a scheduler interleaves the actions
of the concurrent callers one at a time.  A stream write is one action,
matching the code's single `Write` call per stream per record.
-/

/-- One primitive action inside `logf`'s locked section. -/
inductive Act where
  | lock
  | unlock
  | writeOut (data : Str)
  | writeErr (data : Str)
  | callFatal
deriving DecidableEq

/-- The shared state: the remaining program of every caller, the lock
owner, both stream contents, and the termination-callback count. -/
structure Sys where
  threads : List (List Act)
  owner : Option Nat
  out : Str
  err : Str
  fatals : Nat

/-- Runs the next action of thread `i`, if any is enabled: `lock` blocks
while another thread owns the mutex, `unlock` is a no-op for a non-owner,
writes append atomically to the chosen stream. -/
def stepThread (s : Sys) (i : Nat) : Sys :=
  match s.threads[i]? with
  | none => s
  | some [] => s
  | some (a :: rest) =>
    match a with
    | Act.lock =>
      if s.owner = none then Sys.mk (s.threads.set i rest) (some i) s.out s.err s.fatals
      else s
    | Act.unlock =>
      if s.owner = some i then Sys.mk (s.threads.set i rest) none s.out s.err s.fatals
      else s
    | Act.writeOut d => Sys.mk (s.threads.set i rest) s.owner (s.out ++ d) s.err s.fatals
    | Act.writeErr d => Sys.mk (s.threads.set i rest) s.owner s.out (s.err ++ d) s.fatals
    | Act.callFatal => Sys.mk (s.threads.set i rest) s.owner s.out s.err (s.fatals + 1)

/-- Runs a whole schedule (a list of thread choices). -/
def run (s : Sys) : List Nat → Sys
  | [] => s
  | i :: sch => run (stepThread s i) sch

/-- The locked section of one `logf` call, as its action sequence: write
the assembled line to out, then dispatch on the level for the err writes
and the termination callback, all between `lock` and `unlock`. -/
def emitActs (l : Logger) (now : GoTime) (ci : CallerInfo) (dump : Str) (lv m : Str) :
    List Act :=
  let data := renderData l now ci lv m
  Act.lock :: Act.writeOut data ::
    ((if lv = lvlERROR then [Act.writeErr data]
      else if lv = lvlFATAL then [Act.writeErr data, Act.callFatal]
      else if lv = lvlPANIC then [Act.writeErr data, Act.writeErr dump, Act.callFatal]
      else []) ++ [Act.unlock])

/-- The arguments of one concurrent `logf` call (level already extracted). -/
structure CallArgs where
  now : GoTime
  ci : CallerInfo
  dump : Str
  lv : Str
  m : Str

/-- The line a call contributes to the primary stream. -/
def callLine (l : Logger) (a : CallArgs) : Str := renderData l a.now a.ci a.lv a.m

/-- The action program of a call. -/
def callActs (l : Logger) (a : CallArgs) : List Act :=
  emitActs l a.now a.ci a.dump a.lv a.m

/-- Concatenation of a list of lists. -/
def catLists {α : Type} : List (List α) → List α
  | [] => []
  | x :: xs => x ++ catLists xs

/-- The primary-stream writes still pending in one thread's program. -/
def outsOf (acts : List Act) : List Str :=
  acts.filterMap (fun a => match a with | Act.writeOut d => some d | _ => none)

/-- All primary-stream writes still pending in the system. -/
def pendingOuts (s : Sys) : List Str :=
  catLists (s.threads.map outsOf)

theorem catLists_append {α : Type} (xs ys : List (List α)) :
    catLists (xs ++ ys) = catLists xs ++ catLists ys := by
  induction xs with
  | nil => rfl
  | cons x xs ih => simp [catLists, ih]

theorem map_set_comm (f : List Act → List Str) (l : List (List Act)) (i : Nat)
    (a : List Act) : (l.set i a).map f = (l.map f).set i (f a) := by
  induction l generalizing i with
  | nil => rfl
  | cons head tail ih =>
    cases i with
    | zero => rfl
    | succ j => simp [List.set, ih]

theorem catLists_set {α : Type} (m : List (List α)) (i : Nat) (x y : List α)
    (h : m[i]? = some x) :
    ∃ A B : List α, catLists m = A ++ x ++ B ∧ catLists (m.set i y) = A ++ y ++ B := by
  induction m generalizing i with
  | nil => simp at h
  | cons t ts ih =>
    cases i with
    | zero =>
      simp at h
      subst h
      exact ⟨[], catLists ts, by simp [catLists], by simp [catLists, List.set]⟩
    | succ j =>
      simp at h
      obtain ⟨A, B, h1, h2⟩ := ih j h
      refine ⟨t ++ A, B, ?_, ?_⟩
      · simp [catLists, h1]
      · simp [catLists, List.set, h2]

theorem outsOf_lock (rest : List Act) : outsOf (Act.lock :: rest) = outsOf rest := rfl

theorem outsOf_unlock (rest : List Act) : outsOf (Act.unlock :: rest) = outsOf rest := rfl

theorem outsOf_writeErr (d : Str) (rest : List Act) :
    outsOf (Act.writeErr d :: rest) = outsOf rest := rfl

theorem outsOf_callFatal (rest : List Act) :
    outsOf (Act.callFatal :: rest) = outsOf rest := rfl

theorem outsOf_writeOut (d : Str) (rest : List Act) :
    outsOf (Act.writeOut d :: rest) = d :: outsOf rest := rfl

theorem catOuts_set_eq (ths : List (List Act)) (i : Nat) (a : Act) (rest : List Act)
    (h : ths[i]? = some (a :: rest)) (ho : outsOf (a :: rest) = outsOf rest) :
    catLists ((ths.set i rest).map outsOf) = catLists (ths.map outsOf) := by
  have hm : (ths.map outsOf)[i]? = some (outsOf (a :: rest)) := by
    simp [List.getElem?_map, h]
  obtain ⟨A, B, h1, h2⟩ := catLists_set (ths.map outsOf) i (outsOf (a :: rest))
    (outsOf rest) hm
  rw [map_set_comm, h2, h1, ho]

theorem catOuts_set_write (ths : List (List Act)) (i : Nat) (d : Str) (rest : List Act)
    (h : ths[i]? = some (Act.writeOut d :: rest)) :
    (d :: catLists ((ths.set i rest).map outsOf)).Perm (catLists (ths.map outsOf)) := by
  have hm : (ths.map outsOf)[i]? = some (d :: outsOf rest) := by
    simp [List.getElem?_map, h, outsOf_writeOut]
  obtain ⟨A, B, h1, h2⟩ := catLists_set (ths.map outsOf) i (d :: outsOf rest)
    (outsOf rest) hm
  rw [map_set_comm, h2, h1]
  simpa [List.append_assoc] using
    (@List.perm_middle _ d A (outsOf rest ++ B)).symm

/-- One scheduler step either leaves the primary stream alone or moves one
pending write, whole, to its end. -/
theorem stepThread_out (s : Sys) (i : Nat) :
    ∃ ws : List Str, (stepThread s i).out = s.out ++ catLists ws ∧
      (ws ++ pendingOuts (stepThread s i)).Perm (pendingOuts s) := by
  match h : s.threads[i]? with
  | none =>
    exact ⟨[], by simp [stepThread, h, catLists], by simp [stepThread, h]⟩
  | some [] =>
    exact ⟨[], by simp [stepThread, h, catLists], by simp [stepThread, h]⟩
  | some (Act.lock :: rest) =>
    by_cases ho : s.owner = none
    · refine ⟨[], by simp [stepThread, h, ho, catLists], ?_⟩
      simp only [stepThread, h, ho, if_pos, List.nil_append, pendingOuts]
      rw [catOuts_set_eq s.threads i Act.lock rest h (outsOf_lock rest)]
    · exact ⟨[], by simp [stepThread, h, ho, catLists], by simp [stepThread, h, ho]⟩
  | some (Act.unlock :: rest) =>
    by_cases ho : s.owner = some i
    · refine ⟨[], by simp [stepThread, h, ho, catLists], ?_⟩
      simp only [stepThread, h, ho, if_pos, List.nil_append, pendingOuts]
      rw [catOuts_set_eq s.threads i Act.unlock rest h (outsOf_unlock rest)]
    · exact ⟨[], by simp [stepThread, h, ho, catLists], by simp [stepThread, h, ho]⟩
  | some (Act.writeOut d :: rest) =>
    refine ⟨[d], by simp [stepThread, h, catLists], ?_⟩
    simp only [stepThread, h, pendingOuts, List.cons_append, List.nil_append]
    exact catOuts_set_write s.threads i d rest h
  | some (Act.writeErr d :: rest) =>
    refine ⟨[], by simp [stepThread, h, catLists], ?_⟩
    simp only [stepThread, h, List.nil_append, pendingOuts]
    rw [catOuts_set_eq s.threads i (Act.writeErr d) rest h (outsOf_writeErr d rest)]
  | some (Act.callFatal :: rest) =>
    refine ⟨[], by simp [stepThread, h, catLists], ?_⟩
    simp only [stepThread, h, List.nil_append, pendingOuts]
    rw [catOuts_set_eq s.threads i Act.callFatal rest h (outsOf_callFatal rest)]

/-- Any schedule appends some of the pending writes, each whole and in
scheduling order, to the primary stream. -/
theorem run_out (sched : List Nat) (s : Sys) :
    ∃ ws : List Str, (run s sched).out = s.out ++ catLists ws ∧
      (ws ++ pendingOuts (run s sched)).Perm (pendingOuts s) := by
  induction sched generalizing s with
  | nil => exact ⟨[], by simp [run, catLists], by simp [run]⟩
  | cons i sch ih =>
    obtain ⟨ws1, hw1, hp1⟩ := stepThread_out s i
    obtain ⟨ws2, hw2, hp2⟩ := ih (stepThread s i)
    refine ⟨ws1 ++ ws2, ?_, ?_⟩
    · rw [show run s (i :: sch) = run (stepThread s i) sch from rfl, hw2, hw1,
        catLists_append, List.append_assoc]
    · rw [show run s (i :: sch) = run (stepThread s i) sch from rfl,
        List.append_assoc]
      exact (List.Perm.append_left ws1 hp2).trans hp1

theorem outsOf_emitActs (l : Logger) (now : GoTime) (ci : CallerInfo) (dump : Str)
    (lv m : Str) :
    outsOf (emitActs l now ci dump lv m) = [renderData l now ci lv m] := by
  unfold emitActs
  split_ifs <;> rfl

theorem catLists_map_singleton {α β : Type} (f : α → β) (xs : List α) :
    catLists (xs.map (fun x => [f x])) = xs.map f := by
  induction xs with
  | nil => rfl
  | cons x xs ih => simp [catLists, ih]

theorem catLists_eq_nil {α : Type} (m : List (List α)) (h : ∀ x ∈ m, x = []) :
    catLists m = [] := by
  induction m with
  | nil => rfl
  | cons x xs ih =>
    rw [show catLists (x :: xs) = x ++ catLists xs from rfl,
      h x (by simp), ih (fun y hy => h y (by simp [hy]))]
    rfl

example (M : Str) : extractLevel (lvlWARN ++ ' ' :: M) = some (lvlWARN, M) := rfl
example (M : Str) : extractLevel (bracketed lvlFATAL ++ ' ' :: M) = some (lvlFATAL, M) := rfl

/-- On a line that no bare or bracketed severity token prefixes, the scan
falls through and `extractLevel` returns INFO with the line unmodified. -/
theorem extractLevel_default (line : Str)
    (h : ∀ lv ∈ levels, startsWith line lv = false ∧
      startsWith line (bracketed lv) = false) :
    extractLevel line = some (lvlINFO, line) := by
  have h1 := h lvlTRACE (by decide)
  have h2 := h lvlDEBUG (by decide)
  have h3 := h lvlINFO (by decide)
  have h4 := h lvlWARN (by decide)
  have h5 := h lvlERROR (by decide)
  have h6 := h lvlPANIC (by decide)
  have h7 := h lvlFATAL (by decide)
  simp [extractLevel, extractLevelGo, levels, h1.1, h1.2, h2.1, h2.2, h3.1, h3.2,
    h4.1, h4.2, h5.1, h5.2, h6.1, h6.2, h7.1, h7.2]

/-- Claim C1: for every recognized severity token S and every message body
M, `extractLevel` maps `"S M"` and `"[S] M"` to severity S with remainder
exactly M; and a line that starts with no recognized bare or bracketed
severity prefix yields INFO and the unmodified line. -/
theorem c1_extractLevel_spec (S M line : Str) (hS : S ∈ levels) :
    extractLevel (S ++ ' ' :: M) = some (S, M) ∧
    extractLevel (bracketed S ++ ' ' :: M) = some (S, M) ∧
    ((∀ lv ∈ levels, startsWith line lv = false ∧
        startsWith line (bracketed lv) = false) →
      extractLevel line = some (lvlINFO, line)) := by
  fin_cases hS <;>
    exact ⟨rfl, rfl, fun h => extractLevel_default line h⟩

theorem c1_extractLevel_spec_witness :
    extractLevel (lvlERROR ++ ' ' :: ("boom").toList) =
      some (lvlERROR, ("boom").toList) ∧
    extractLevel (bracketed lvlERROR ++ ' ' :: ("boom").toList) =
      some (lvlERROR, ("boom").toList) ∧
    extractLevel (("plain text").toList) =
      some (lvlINFO, ("plain text").toList) := by
  obtain ⟨h1, h2, h3⟩ :=
    c1_extractLevel_spec lvlERROR (("boom").toList) (("plain text").toList) (by decide)
  exact ⟨h1, h2, h3 (by decide)⟩

/-- Claim C2 names a safety property the code does not have: on a line
that is exactly a bare severity token (or exactly a bracketed one), the
matched branch of `extractLevel` slices `line[len(lv)+1:]` (resp.
`line[len(lv)+3:]`) past the end of the string, a Go runtime panic
(`slice bounds out of range`) that propagates out of `Logf` to the
caller — modelled by `none`. -/
theorem c2_logf_bare_token_panics :
    Logf (New []) testTime emptyCI [] (("ERROR").toList) = none ∧
    Logf (New []) testTime emptyCI [] (("[ERROR]").toList) = none ∧
    extractLevel (("ERROR").toList) = none ∧
    extractLevel (("[ERROR]").toList) = none :=
  ⟨rfl, rfl, rfl, rfl⟩

/-- Claim C3 as stated is false for FATAL: the `logf` switch appends the
`getDump()` stack trace to the err stream only on the PANIC branch; on
FATAL the secondary stream receives exactly the line, so with a non-empty
dump it is not the primary content with the dump concatenated. -/
theorem c3_fatal_dump_counterexample :
    logf (New []) testTime emptyCI (("goroutine 1 [running]:").toList)
        (("FATAL boom").toList) =
      some (LogResult.mk (("2018/01/07 13:02:34 FATAL boom\n").toList)
        (("2018/01/07 13:02:34 FATAL boom\n").toList) 1) ∧
    ¬ (("2018/01/07 13:02:34 FATAL boom\n").toList =
        ("2018/01/07 13:02:34 FATAL boom\n").toList ++
          ("goroutine 1 [running]:").toList) :=
  ⟨rfl, by decide⟩

/-- Claim C3, amended: a PANIC record writes the line to both streams,
appends the stack dump to the secondary stream and invokes the
termination callback exactly once; a FATAL record writes the line to both
streams and invokes the callback exactly once, but appends no dump. -/
theorem c3_amended_panic_fatal (l : Logger) (now : GoTime) (ci : CallerInfo)
    (dump msg lv m : Str) (hx : extractLevel msg = some (lv, m)) :
    (lv = lvlPANIC →
      logf l now ci dump msg =
        some (LogResult.mk (renderData l now ci lv m)
          (renderData l now ci lv m ++ dump) 1)) ∧
    (lv = lvlFATAL →
      logf l now ci dump msg =
        some (LogResult.mk (renderData l now ci lv m)
          (renderData l now ci lv m) 1)) := by
  constructor
  · intro hlv
    subst hlv
    simp [logf, hx, show ¬(lvlPANIC = lvlDEBUG) by decide,
      show ¬(lvlPANIC = lvlTRACE) by decide, show ¬(lvlPANIC = lvlERROR) by decide,
      show ¬(lvlPANIC = lvlFATAL) by decide]
  · intro hlv
    subst hlv
    simp [logf, hx, show ¬(lvlFATAL = lvlDEBUG) by decide,
      show ¬(lvlFATAL = lvlTRACE) by decide, show ¬(lvlFATAL = lvlERROR) by decide]

theorem c3_amended_panic_fatal_witness :
    logf (New []) testTime emptyCI (("goroutine 1 [running]:").toList)
        (("PANIC boom").toList) =
      some (LogResult.mk
        (renderData (New []) testTime emptyCI lvlPANIC (("boom").toList))
        (renderData (New []) testTime emptyCI lvlPANIC (("boom").toList) ++
          ("goroutine 1 [running]:").toList) 1) :=
  (c3_amended_panic_fatal (New []) testTime emptyCI
    (("goroutine 1 [running]:").toList) (("PANIC boom").toList)
    lvlPANIC (("boom").toList) rfl).1 rfl

theorem replaceFirstAux_ne_nil (old new s : Str) (hs : s ≠ []) (hn : new ≠ []) :
    replaceFirstAux old new s ≠ [] := by
  cases s with
  | nil => exact absurd rfl hs
  | cons c cs =>
    cases h : startsWith (c :: cs) old with
    | true => simp [replaceFirstAux, h, hn]
    | false => simp [replaceFirstAux, h]

theorem replaceFirst_ne_nil (old new s : Str) (hs : s ≠ []) (hn : new ≠ []) :
    replaceFirst old new s ≠ [] := by
  unfold replaceFirst
  cases ho : old.isEmpty with
  | true => simp [hs]
  | false => simpa using replaceFirstAux_ne_nil old new s hs hn

/-- A rendered line is never empty: the template output always gets the
line terminator appended, and the bracket-spacing fix replaces with a
non-empty string. -/
theorem renderData_ne_nil (l : Logger) (now : GoTime) (ci : CallerInfo) (lv m : Str) :
    renderData l now ci lv m ≠ [] := by
  cases hb : l.levelBracesOn with
  | false => simp [renderData, hb]
  | true =>
    simp only [renderData, hb, if_true]
    exact replaceFirst_ne_nil _ _ _
      (replaceFirst_ne_nil _ _ _ (by simp) (by decide)) (by decide)

/-- Claim C4: with the debug flag off a DEBUG record writes zero bytes to
either stream (and never invokes the callback), likewise TRACE with the
trace flag off; with the corresponding flag on the identical message
produces non-empty output on the primary stream. -/
theorem c4_debug_trace_gating (l : Logger) (now : GoTime) (ci : CallerInfo)
    (dump msg lv m : Str) (hx : extractLevel msg = some (lv, m)) :
    (lv = lvlDEBUG → l.dbg = false →
      logf l now ci dump msg = some (LogResult.mk [] [] 0)) ∧
    (lv = lvlTRACE → l.trace = false →
      logf l now ci dump msg = some (LogResult.mk [] [] 0)) ∧
    (lv = lvlDEBUG → l.dbg = true →
      logf l now ci dump msg =
        some (LogResult.mk (renderData l now ci lv m) [] 0) ∧
      renderData l now ci lv m ≠ []) ∧
    (lv = lvlTRACE → l.trace = true →
      logf l now ci dump msg =
        some (LogResult.mk (renderData l now ci lv m) [] 0) ∧
      renderData l now ci lv m ≠ []) := by
  refine ⟨?_, ?_, ?_, ?_⟩
  · intro hlv hdbg
    subst hlv
    simp [logf, hx, hdbg]
  · intro hlv htr
    subst hlv
    simp [logf, hx, htr, show ¬(lvlTRACE = lvlDEBUG) by decide]
  · intro hlv hdbg
    subst hlv
    refine ⟨?_, renderData_ne_nil l now ci lvlDEBUG m⟩
    simp [logf, hx, hdbg, show ¬(lvlDEBUG = lvlTRACE) by decide,
      show ¬(lvlDEBUG = lvlERROR) by decide, show ¬(lvlDEBUG = lvlFATAL) by decide,
      show ¬(lvlDEBUG = lvlPANIC) by decide]
  · intro hlv htr
    subst hlv
    refine ⟨?_, renderData_ne_nil l now ci lvlTRACE m⟩
    simp [logf, hx, htr, show ¬(lvlTRACE = lvlDEBUG) by decide,
      show ¬(lvlTRACE = lvlERROR) by decide, show ¬(lvlTRACE = lvlFATAL) by decide,
      show ¬(lvlTRACE = lvlPANIC) by decide]

theorem c4_debug_trace_gating_witness :
    logf (New []) testTime emptyCI [] (("DEBUG hidden").toList) =
      some (LogResult.mk [] [] 0) ∧
    logf (New [Debug]) testTime emptyCI [] (("DEBUG hidden").toList) =
      some (LogResult.mk
        (renderData (New [Debug]) testTime emptyCI lvlDEBUG (("hidden").toList)) [] 0) ∧
    renderData (New [Debug]) testTime emptyCI lvlDEBUG (("hidden").toList) ≠ [] := by
  refine ⟨?_, ?_, ?_⟩
  · exact (c4_debug_trace_gating (New []) testTime emptyCI [] (("DEBUG hidden").toList)
      lvlDEBUG (("hidden").toList) rfl).1 rfl rfl
  · exact ((c4_debug_trace_gating (New [Debug]) testTime emptyCI [] (("DEBUG hidden").toList)
      lvlDEBUG (("hidden").toList) rfl).2.2.1 rfl rfl).1
  · exact ((c4_debug_trace_gating (New [Debug]) testTime emptyCI [] (("DEBUG hidden").toList)
      lvlDEBUG (("hidden").toList) rfl).2.2.1 rfl rfl).2

/-- Claim C5: an INFO or WARN record writes the rendered line (with its
terminator) to the primary stream only; an ERROR record writes the
identical bytes to both the primary and the secondary stream. -/
theorem c5_stream_routing (l : Logger) (now : GoTime) (ci : CallerInfo)
    (dump msg lv m : Str) (hx : extractLevel msg = some (lv, m)) :
    ((lv = lvlINFO ∨ lv = lvlWARN) →
      logf l now ci dump msg =
        some (LogResult.mk (renderData l now ci lv m) [] 0)) ∧
    (lv = lvlERROR →
      logf l now ci dump msg =
        some (LogResult.mk (renderData l now ci lv m)
          (renderData l now ci lv m) 0)) := by
  constructor
  · rintro (hlv | hlv) <;> subst hlv
    · simp [logf, hx, show ¬(lvlINFO = lvlDEBUG) by decide,
        show ¬(lvlINFO = lvlTRACE) by decide, show ¬(lvlINFO = lvlERROR) by decide,
        show ¬(lvlINFO = lvlFATAL) by decide, show ¬(lvlINFO = lvlPANIC) by decide]
    · simp [logf, hx, show ¬(lvlWARN = lvlDEBUG) by decide,
        show ¬(lvlWARN = lvlTRACE) by decide, show ¬(lvlWARN = lvlERROR) by decide,
        show ¬(lvlWARN = lvlFATAL) by decide, show ¬(lvlWARN = lvlPANIC) by decide]
  · intro hlv
    subst hlv
    simp [logf, hx, show ¬(lvlERROR = lvlDEBUG) by decide,
      show ¬(lvlERROR = lvlTRACE) by decide]

theorem c5_stream_routing_witness :
    logf (New []) testTime emptyCI [] (("WARN watch out").toList) =
      some (LogResult.mk
        (renderData (New []) testTime emptyCI lvlWARN (("watch out").toList)) [] 0) ∧
    logf (New []) testTime emptyCI [] (("ERROR oops").toList) =
      some (LogResult.mk
        (renderData (New []) testTime emptyCI lvlERROR (("oops").toList))
        (renderData (New []) testTime emptyCI lvlERROR (("oops").toList)) 0) := by
  constructor
  · exact (c5_stream_routing (New []) testTime emptyCI [] (("WARN watch out").toList)
      lvlWARN (("watch out").toList) rfl).1 (Or.inr rfl)
  · exact (c5_stream_routing (New []) testTime emptyCI [] (("ERROR oops").toList)
      lvlERROR (("oops").toList) rfl).2 rfl

/-- The parsed shape of the `Short` fallback template. -/
theorem shortToks_eq :
    shortToks = [TplToken.dtFormat (("2006/01/02 15:04:05").toList),
      TplToken.lit [' '], TplToken.field (("Level").toList), TplToken.lit [' '],
      TplToken.field (("Message").toList)] := rfl

/-- Rendering the fallback template always succeeds and yields the minimal
timestamp + level + message line. -/
theorem execTpl_short (e : Layout) :
    execTpl e shortToks =
      (e.DT.fmt (("2006/01/02 15:04:05").toList) ++
        (' ' :: (e.Level ++ (' ' :: e.Message))), none) := by
  rw [shortToks_eq]
  simp +decide [execTpl, execTok]

/-- Both failure modes of `New`'s template handling (parse error, or an
execute error on the `layout\x7b\x7d` smoke render) select the `Short`
fallback. -/
theorem resolveTemplate_fallback (fmt0 : Str)
    (h : (∃ e, parseTpl fmt0 = Except.error e) ∨
      (∃ toks, parseTpl fmt0 = Except.ok toks ∧ (execTpl emptyLayout toks).2 ≠ none)) :
    resolveTemplate fmt0 = (Short, shortToks) := by
  rcases h with ⟨e, he⟩ | ⟨toks, ht, hs⟩
  · simp [resolveTemplate, he]
  · simp [resolveTemplate, ht, Option.isSome_iff_ne_none, hs]

/-- A log call whose level passes the DEBUG/TRACE gates always produces a
result whose primary-stream bytes are the rendered line. -/
theorem logf_not_gated (l : Logger) (now : GoTime) (ci : CallerInfo)
    (dump msg lv m : Str) (hx : extractLevel msg = some (lv, m))
    (hd : ¬(lv = lvlDEBUG ∧ l.dbg = false)) (ht : ¬(lv = lvlTRACE ∧ l.trace = false)) :
    ∃ r : LogResult, logf l now ci dump msg = some r ∧
      r.out = renderData l now ci lv m := by
  simp only [logf, hx]
  rw [if_neg hd, if_neg ht]
  split_ifs <;> exact ⟨_, rfl, rfl⟩

/-- Claim C6: if the template supplied at construction fails to parse, or
fails the smoke render against the empty record, the constructed logger
falls back to the built-in minimal layout `Short` (timestamp + level +
message); every subsequent non-suppressed log call renders through that
fallback, producing a non-empty line, and no template error reaches the
caller (`New` is total and the fallback template always executes without
error). -/
theorem c6_template_fallback (c : Config) (now : GoTime) (ci : CallerInfo)
    (dump msg lv m : Str)
    (hne : c.format ≠ [])
    (hfail : (∃ e, parseTpl c.format = Except.error e) ∨
      (∃ toks, parseTpl c.format = Except.ok toks ∧ (execTpl emptyLayout toks).2 ≠ none))
    (hx : extractLevel msg = some (lv, m))
    (hd : ¬(lv = lvlDEBUG ∧ c.dbg = false))
    (ht : ¬(lv = lvlTRACE ∧ c.trace = false)) :
    (newFromConfig c).format = Short ∧
    (newFromConfig c).templ = shortToks ∧
    (∀ e : Layout, (execTpl e shortToks).2 = none) ∧
    ∃ r : LogResult, logf (newFromConfig c) now ci dump msg = some r ∧
      r.out = (now.fmt (("2006/01/02 15:04:05").toList) ++
        (' ' :: (formatLevel lv ++ (' ' :: trimNewline m)))) ++ ['\n'] ∧
      r.out ≠ [] := by
  have hfmt0 : c.format.isEmpty = false := by
    cases hc : c.format with
    | nil => exact absurd hc hne
    | cons a b => rfl
  have hres := resolveTemplate_fallback c.format hfail
  have hL : newFromConfig c = Logger.mk c.dbg c.trace c.callerFile c.callerFunc
      c.callerPkg c.levelBraces c.msec Short shortToks false false := by
    simp [newFromConfig, hfmt0, hres,
      show containsSub Short callerMark = false from rfl,
      show containsSub Short braceMark = false from rfl]
  refine ⟨by rw [hL], by rw [hL], fun e => by rw [execTpl_short], ?_⟩
  obtain ⟨r, hr, hout⟩ := logf_not_gated (newFromConfig c) now ci dump msg lv m hx
    (by rw [hL]; exact hd) (by rw [hL]; exact ht)
  refine ⟨r, hr, ?_, ?_⟩
  · rw [hout, hL]
    simp [renderData, emptyCI, execTpl_short]
  · rw [hout]
    exact renderData_ne_nil _ now ci lv m

theorem c6_template_fallback_witness :
    (newFromConfig (Config.mk false false false false false false false
      (("\x7b\x7bbad").toList))).format = Short ∧
    ∃ r : LogResult,
      logf (newFromConfig (Config.mk false false false false false false false
        (("\x7b\x7bbad").toList))) testTime emptyCI [] (("INFO hi").toList) = some r ∧
      r.out = (testTime.fmt (("2006/01/02 15:04:05").toList) ++
        (' ' :: (formatLevel lvlINFO ++ (' ' :: trimNewline (("hi").toList))))) ++ ['\n'] ∧
      r.out ≠ [] := by
  obtain ⟨h1, h2, h3, h4⟩ := c6_template_fallback
    (Config.mk false false false false false false false (("\x7b\x7bbad").toList))
    testTime emptyCI [] (("INFO hi").toList) lvlINFO (("hi").toList)
    (by decide) (Or.inl ⟨(("unclosed action").toList), rfl⟩) rfl
    (by decide) (by decide)
  exact ⟨h1, h4⟩

/-- A `logf` call reads only the gating flags and the parsed template
state of the logger: the individual formatting flags and the raw format
text play no role once `templ`, `callerOn` and `levelBracesOn` are fixed. -/
theorem logf_ignores_flag_fields (d t cf cf' cfn cfn' cp cp' lb lb' ms ms' : Bool)
    (fmt fmt' : Str) (tp : List TplToken) (con lbo : Bool) (now : GoTime)
    (ci : CallerInfo) (dump msg : Str) :
    logf (Logger.mk d t cf cfn cp lb ms fmt tp con lbo) now ci dump msg =
      logf (Logger.mk d t cf' cfn' cp' lb' ms' fmt' tp con lbo) now ci dump msg := rfl

/-- Claim C7: when the `Format` option supplies a (non-empty) render
template, the individual formatting flag options (`Msec`, `LevelBraces`,
`CallerFile`, `CallerFunc`, `CallerPkg`) have no influence: two loggers
built from the same template (and the same gating flags, which are not
formatting options) emit identical results on every record. -/
theorem c7_format_wins (c1 c2 : Config) (now : GoTime) (ci : CallerInfo)
    (dump msg : Str) (hf : c1.format = c2.format) (hne : c1.format ≠ [])
    (hdbg : c1.dbg = c2.dbg) (htr : c1.trace = c2.trace) :
    logf (newFromConfig c1) now ci dump msg =
      logf (newFromConfig c2) now ci dump msg := by
  have h1 : c1.format.isEmpty = false := by
    cases hc : c1.format with
    | nil => exact absurd hc hne
    | cons a b => rfl
  have h2 : c2.format.isEmpty = false := by rw [← hf]; exact h1
  have e1 : newFromConfig c1 = Logger.mk c1.dbg c1.trace c1.callerFile c1.callerFunc
      c1.callerPkg c1.levelBraces c1.msec (resolveTemplate c1.format).1
      (resolveTemplate c1.format).2 (containsSub (resolveTemplate c1.format).1 callerMark)
      (containsSub (resolveTemplate c1.format).1 braceMark) := by
    simp [newFromConfig, h1]
  have e2 : newFromConfig c2 = Logger.mk c2.dbg c2.trace c2.callerFile c2.callerFunc
      c2.callerPkg c2.levelBraces c2.msec (resolveTemplate c2.format).1
      (resolveTemplate c2.format).2 (containsSub (resolveTemplate c2.format).1 callerMark)
      (containsSub (resolveTemplate c2.format).1 braceMark) := by
    simp [newFromConfig, h2]
  rw [e1, e2, hf, hdbg, htr]
  exact logf_ignores_flag_fields c2.dbg c2.trace c1.callerFile c2.callerFile
    c1.callerFunc c2.callerFunc c1.callerPkg c2.callerPkg c1.levelBraces c2.levelBraces
    c1.msec c2.msec (resolveTemplate c2.format).1 (resolveTemplate c2.format).1
    (resolveTemplate c2.format).2 (containsSub (resolveTemplate c2.format).1 callerMark)
    (containsSub (resolveTemplate c2.format).1 braceMark) now ci dump msg

theorem c7_format_wins_witness :
    logf (New [Msec, LevelBraces, CallerFile, CallerFunc, CallerPkg, Format Short])
        testTime emptyCI [] (("WARN watch").toList) =
      logf (New [Format Short]) testTime emptyCI [] (("WARN watch").toList) :=
  c7_format_wins
    (applyOpts [Msec, LevelBraces, CallerFile, CallerFunc, CallerPkg, Format Short])
    (applyOpts [Format Short]) testTime emptyCI [] (("WARN watch").toList)
    rfl (by decide) rfl rfl

/-- Claim C8: for any number of concurrent callers sharing one logger,
under any scheduler interleaving of the per-call locked write sequences
that runs all calls to completion, the primary stream is a concatenation
of the calls' rendered lines, one complete (never split or interleaved)
line per call. -/
theorem c8_concurrent_atomic_lines (l : Logger) (calls : List CallArgs)
    (sched : List Nat)
    (hdone : ∀ t ∈ (run (Sys.mk (calls.map (callActs l)) none [] [] 0) sched).threads,
      t = []) :
    ∃ ws : List Str, ws.Perm (calls.map (callLine l)) ∧
      (run (Sys.mk (calls.map (callActs l)) none [] [] 0) sched).out = catLists ws := by
  obtain ⟨ws, hout, hperm⟩ :=
    run_out sched (Sys.mk (calls.map (callActs l)) none [] [] 0)
  have hpend0 : pendingOuts (Sys.mk (calls.map (callActs l)) none [] [] 0) =
      calls.map (callLine l) := by
    simp only [pendingOuts, List.map_map]
    have hco : (outsOf ∘ callActs l) = fun a => [callLine l a] := by
      funext a
      exact outsOf_emitActs l a.now a.ci a.dump a.lv a.m
    rw [hco, catLists_map_singleton]
  have hpendF :
      pendingOuts (run (Sys.mk (calls.map (callActs l)) none [] [] 0) sched) = [] := by
    apply catLists_eq_nil
    intro x hx
    obtain ⟨t, hmem, rfl⟩ := List.mem_map.mp hx
    rw [hdone t hmem]
    rfl
  refine ⟨ws, ?_, by simpa using hout⟩
  rw [hpendF, List.append_nil, hpend0] at hperm
  exact hperm

def c8WitnessCalls : List CallArgs :=
  [CallArgs.mk testTime emptyCI [] lvlINFO (("alpha").toList),
   CallArgs.mk testTime emptyCI [] lvlINFO (("beta").toList)]

theorem c8_concurrent_atomic_lines_witness :
    ∃ ws : List Str, ws.Perm (c8WitnessCalls.map (callLine (New []))) ∧
      (run (Sys.mk (c8WitnessCalls.map (callActs (New []))) none [] [] 0)
        [0, 1, 0, 0, 1, 1, 1]).out = catLists ws :=
  c8_concurrent_atomic_lines (New []) c8WitnessCalls [0, 1, 0, 0, 1, 1, 1] (by decide)

theorem containsSub_eq_false_of_no_open (s p : Str) (hs : ∀ c ∈ s, c ≠ '[') :
    containsSub s ('[' :: p) = false := by
  induction s with
  | nil => rfl
  | cons c cs ih =>
    have hc : c ≠ '[' := hs c (by simp)
    have h1 : startsWith (c :: cs) ('[' :: p) = false := by
      have hbe : ('[' == c) = false := beq_eq_false_iff_ne.mpr (Ne.symm hc)
      simp [startsWith, hbe]
    simp [containsSub, h1, ih (fun d hd => hs d (List.mem_cons_of_mem c hd))]

theorem replaceFirstAux_no_open (new p s : Str) (hs : ∀ c ∈ s, c ≠ '[') :
    replaceFirstAux ('[' :: p) new s = s := by
  induction s with
  | nil => rfl
  | cons c cs ih =>
    have hc : c ≠ '[' := hs c (by simp)
    have h1 : startsWith (c :: cs) ('[' :: p) = false := by
      have hbe : ('[' == c) = false := beq_eq_false_iff_ne.mpr (Ne.symm hc)
      simp [startsWith, hbe]
    simp [replaceFirstAux, h1, ih (fun d hd => hs d (List.mem_cons_of_mem c hd))]

/-- Claim C9 as stated is false in its concrete example: the spacing fix
rewrites `"[WARN ]"` to `"[WARN] "` inside the already-joined line, so the
template separator space survives and the emitted line reads
`"[WARN]  x"` (two spaces) — it does not contain `"[WARN] x"`.  The fix is
also a first-occurrence byte replacement, so a message body containing
`"[WARN ]"` twice keeps one occurrence in the output. -/
theorem c9_brace_spacing_counterexample :
    logf (New [LevelBraces]) testTime emptyCI [] (("[WARN] x").toList) =
      some (LogResult.mk (("2018/01/07 13:02:34 [WARN]  x\n").toList) [] 0) ∧
    containsSub (("2018/01/07 13:02:34 [WARN]  x\n").toList)
      (("[WARN] x").toList) = false ∧
    logf (New [LevelBraces]) testTime emptyCI []
        (("ERROR a [WARN ] b [WARN ] c").toList) =
      some (LogResult.mk
        (("2018/01/07 13:02:34 [ERROR] a [WARN]  b [WARN ] c\n").toList)
        (("2018/01/07 13:02:34 [ERROR] a [WARN]  b [WARN ] c\n").toList) 0) ∧
    containsSub (("2018/01/07 13:02:34 [ERROR] a [WARN]  b [WARN ] c\n").toList)
      (("[WARN ]").toList) = true :=
  ⟨rfl, rfl, rfl, rfl⟩

/-- Claim C9, amended: with level braces enabled and a message body free
of `'['`, the spacing fix applies to both padded 4-letter levels: a WARN
record and an INFO record each emit the corrected `"[WARN] "` (resp.
`"[INFO] "`) form, and the emitted line contains neither `"[WARN ]"` nor
`"[INFO ]"`; for the concrete input `"[WARN] x"` the line shows
`"[WARN]  x"`, the padding space moved outside the closing bracket ahead
of the separator space. -/
theorem c9_amended_brace_spacing (m : Str) (hm : ∀ c ∈ m, c ≠ '[') :
    (∃ r : LogResult,
      logf (New [LevelBraces]) testTime emptyCI [] (bracketed lvlWARN ++ ' ' :: m) =
        some r ∧
      r.out = '2' :: '0' :: '1' :: '8' :: '/' :: '0' :: '1' :: '/' :: '0' :: '7' :: ' ' :: '1' :: '3' :: ':' :: '0' :: '2' :: ':' :: '3' :: '4' :: ' ' :: '[' :: 'W' :: 'A' :: 'R' :: 'N' :: ']' :: ' ' :: ' ' :: (trimNewline m ++ ['\n']) ∧
      containsSub r.out (("[WARN] ").toList) = true ∧
      containsSub r.out (("[WARN ]").toList) = false ∧
      containsSub r.out (("[INFO ]").toList) = false) ∧
    (∃ r : LogResult,
      logf (New [LevelBraces]) testTime emptyCI [] (bracketed lvlINFO ++ ' ' :: m) =
        some r ∧
      r.out = '2' :: '0' :: '1' :: '8' :: '/' :: '0' :: '1' :: '/' :: '0' :: '7' :: ' ' :: '1' :: '3' :: ':' :: '0' :: '2' :: ':' :: '3' :: '4' :: ' ' :: '[' :: 'I' :: 'N' :: 'F' :: 'O' :: ']' :: ' ' :: ' ' :: (trimNewline m ++ ['\n']) ∧
      containsSub r.out (("[INFO] ").toList) = true ∧
      containsSub r.out (("[WARN ]").toList) = false ∧
      containsSub r.out (("[INFO ]").toList) = false) := by
  have hm3 : ∀ c ∈ trimNewline m ++ ['\n'], c ≠ '[' := by
    intro c hc
    rcases List.mem_append.mp hc with h1 | h2
    · refine hm c ?_
      by_cases hgl : m.getLast? = some '\n'
      · rw [trimNewline, if_pos hgl] at h1
        exact (List.dropLast_sublist (l := m)).subset h1
      · rw [trimNewline, if_neg hgl] at h1
        exact h1
    · rw [List.mem_singleton] at h2
      subst h2
      decide
  have hm2 : ∀ c ∈ (trimNewline m ++ ([] : Str)) ++ ['\n'], c ≠ '[' := by
    intro c hc
    rw [List.append_nil] at hc
    exact hm3 c hc
  constructor
  · obtain ⟨r, hr, hout⟩ := logf_not_gated (New [LevelBraces]) testTime emptyCI []
      (bracketed lvlWARN ++ ' ' :: m) lvlWARN m rfl
      (fun h => absurd h.1 (by decide)) (fun h => absurd h.1 (by decide))
    have hrd : renderData (New [LevelBraces]) testTime emptyCI lvlWARN m =
        '2' :: '0' :: '1' :: '8' :: '/' :: '0' :: '1' :: '/' :: '0' :: '7' :: ' ' :: '1' :: '3' :: ':' :: '0' :: '2' :: ':' :: '3' :: '4' :: ' ' :: '[' :: 'W' :: 'A' :: 'R' :: 'N' :: ']' :: ' ' :: ' ' ::
          replaceFirstAux infoPad infoFix ((trimNewline m ++ ([] : Str)) ++ ['\n']) := rfl
    have hres :
        replaceFirstAux infoPad infoFix ((trimNewline m ++ ([] : Str)) ++ ['\n']) =
          (trimNewline m ++ ([] : Str)) ++ ['\n'] :=
      replaceFirstAux_no_open infoFix (("INFO ]").toList) _ hm2
    have hfinal : r.out = '2' :: '0' :: '1' :: '8' :: '/' :: '0' :: '1' :: '/' :: '0' :: '7' :: ' ' :: '1' :: '3' :: ':' :: '0' :: '2' :: ':' :: '3' :: '4' :: ' ' :: '[' :: 'W' :: 'A' :: 'R' :: 'N' :: ']' :: ' ' :: ' ' :: (trimNewline m ++ ['\n']) := by
      rw [hout, hrd, hres, List.append_nil]
    refine ⟨r, hr, hfinal, ?_, ?_, ?_⟩
    · rw [hfinal]
      rfl
    · rw [hfinal, show (("[WARN ]").toList : Str) = '[' :: 'W' :: 'A' :: 'R' :: 'N' :: ' ' :: ']' :: [] from rfl]
      simp only [containsSub, startsWith]
      simp +decide
      exact containsSub_eq_false_of_no_open _ _ hm3
    · rw [hfinal, show (("[INFO ]").toList : Str) = '[' :: 'I' :: 'N' :: 'F' :: 'O' :: ' ' :: ']' :: [] from rfl]
      simp only [containsSub, startsWith]
      simp +decide
      exact containsSub_eq_false_of_no_open _ _ hm3
  · obtain ⟨r, hr, hout⟩ := logf_not_gated (New [LevelBraces]) testTime emptyCI []
      (bracketed lvlINFO ++ ' ' :: m) lvlINFO m rfl
      (fun h => absurd h.1 (by decide)) (fun h => absurd h.1 (by decide))
    have hrd : renderData (New [LevelBraces]) testTime emptyCI lvlINFO m =
        '2' :: '0' :: '1' :: '8' :: '/' :: '0' :: '1' :: '/' :: '0' :: '7' :: ' ' :: '1' :: '3' :: ':' :: '0' :: '2' :: ':' :: '3' :: '4' :: ' ' :: '[' :: 'I' :: 'N' :: 'F' :: 'O' :: ']' :: ' ' :: ' ' ::
          replaceFirstAux warnPad warnFix ((trimNewline m ++ ([] : Str)) ++ ['\n']) := rfl
    have hres :
        replaceFirstAux warnPad warnFix ((trimNewline m ++ ([] : Str)) ++ ['\n']) =
          (trimNewline m ++ ([] : Str)) ++ ['\n'] :=
      replaceFirstAux_no_open warnFix (("WARN ]").toList) _ hm2
    have hfinal : r.out = '2' :: '0' :: '1' :: '8' :: '/' :: '0' :: '1' :: '/' :: '0' :: '7' :: ' ' :: '1' :: '3' :: ':' :: '0' :: '2' :: ':' :: '3' :: '4' :: ' ' :: '[' :: 'I' :: 'N' :: 'F' :: 'O' :: ']' :: ' ' :: ' ' :: (trimNewline m ++ ['\n']) := by
      rw [hout, hrd, hres, List.append_nil]
    refine ⟨r, hr, hfinal, ?_, ?_, ?_⟩
    · rw [hfinal]
      rfl
    · rw [hfinal, show (("[WARN ]").toList : Str) = '[' :: 'W' :: 'A' :: 'R' :: 'N' :: ' ' :: ']' :: [] from rfl]
      simp only [containsSub, startsWith]
      simp +decide
      exact containsSub_eq_false_of_no_open _ _ hm3
    · rw [hfinal, show (("[INFO ]").toList : Str) = '[' :: 'I' :: 'N' :: 'F' :: 'O' :: ' ' :: ']' :: [] from rfl]
      simp only [containsSub, startsWith]
      simp +decide
      exact containsSub_eq_false_of_no_open _ _ hm3

theorem c9_amended_brace_spacing_witness :
    (∃ r : LogResult,
      logf (New [LevelBraces]) testTime emptyCI []
          (bracketed lvlWARN ++ ' ' :: ("x").toList) = some r ∧
      r.out = '2' :: '0' :: '1' :: '8' :: '/' :: '0' :: '1' :: '/' :: '0' :: '7' :: ' ' :: '1' :: '3' :: ':' :: '0' :: '2' :: ':' :: '3' :: '4' :: ' ' :: '[' :: 'W' :: 'A' :: 'R' :: 'N' :: ']' :: ' ' :: ' ' :: (trimNewline (("x").toList) ++ ['\n']) ∧
      containsSub r.out (("[WARN] ").toList) = true ∧
      containsSub r.out (("[WARN ]").toList) = false ∧
      containsSub r.out (("[INFO ]").toList) = false) ∧
    (∃ r : LogResult,
      logf (New [LevelBraces]) testTime emptyCI []
          (bracketed lvlINFO ++ ' ' :: ("x").toList) = some r ∧
      r.out = '2' :: '0' :: '1' :: '8' :: '/' :: '0' :: '1' :: '/' :: '0' :: '7' :: ' ' :: '1' :: '3' :: ':' :: '0' :: '2' :: ':' :: '3' :: '4' :: ' ' :: '[' :: 'I' :: 'N' :: 'F' :: 'O' :: ']' :: ' ' :: ' ' :: (trimNewline (("x").toList) ++ ['\n']) ∧
      containsSub r.out (("[INFO] ").toList) = true ∧
      containsSub r.out (("[WARN ]").toList) = false ∧
      containsSub r.out (("[INFO ]").toList) = false) :=
  c9_amended_brace_spacing (("x").toList) (by decide)

/-- Claim C10: the bracket-spacing correction replaces the first
occurrence of `"[WARN ]"` anywhere in the rendered line, so a message body
containing `"[WARN ]"` under a 5-letter level (ERROR) has its text
altered: the occurrence inside the message is emitted as `"[WARN] "`. -/
theorem c10_replace_alters_message :
    logf (New [LevelBraces]) testTime emptyCI [] (("ERROR see [WARN ] here").toList) =
      some (LogResult.mk
        (("2018/01/07 13:02:34 [ERROR] see [WARN]  here\n").toList)
        (("2018/01/07 13:02:34 [ERROR] see [WARN]  here\n").toList) 0) ∧
    containsSub (("see [WARN ] here").toList) (("[WARN ]").toList) = true ∧
    containsSub (("2018/01/07 13:02:34 [ERROR] see [WARN]  here\n").toList)
      (("[WARN ] here").toList) = false ∧
    containsSub (("2018/01/07 13:02:34 [ERROR] see [WARN]  here\n").toList)
      (("[WARN]  here").toList) = true :=
  ⟨rfl, rfl, rfl, rfl⟩

/-- Claim C6 as stated is not quite true of the code: even after the
template fallback, a subsequent log call can still panic — not from the
template path, but from the `extractLevel` slice bug — so "every
subsequent log call … never produces … a panic" fails on the message
`"ERROR"` with no following byte. -/
theorem c6_fallback_panic_counterexample :
    (newFromConfig (Config.mk false false false false false false false
      (("\x7b\x7bbad").toList))).format = Short ∧
    Logf (newFromConfig (Config.mk false false false false false false false
        (("\x7b\x7bbad").toList))) testTime emptyCI [] (("ERROR").toList) = none :=
  ⟨rfl, rfl⟩
